import Mathlib

/-!
Shallow embedding of the omnisearch-sdk multi-provider web-search engine.

Sources embedded:
- `src/index.ts` — `getTroubleshootingInfo` and the aggregation engine `webSearch`;
- `src/providers/perplexity.ts` — the Perplexity adapter (response mapping and
  error classification) and its unconfigured module-level singleton;
- the Parallel adapter file (same structure) and the Arxiv singleton;
- `src/utils/debug.ts` — the debug logging hooks.

Modelling conventions:
- Asynchronous results are modelled as `Except`: a resolved promise is `.ok`,
  a rejected one is `.error`.
- JavaScript throw values are `JSError`: an `HttpError` (status code and
  message), a plain `Error` (message), or a non-`Error` value (its
  `String(...)` rendering).
- JavaScript string truthiness (`undefined` and `""` are falsy) is
  `jsTruthyOptStr` / `jsTruthyStr`; `a || b` on strings is `jsOrStr`.
- The adapter's network call (`post`/`get` in `utils/http.ts`, external I/O)
  is a parameter: a function from the built request body to the outcome the
  transport returns.  The platform `new URL(u).hostname` constructor, which
  throws on malformed input, is likewise a parameter of type
  `String → Except String String`.
- In `webSearch` each adapter is one `Provider` record carrying its name and
  the outcome its `search` settles to for this call (the engine calls every
  adapter exactly once, so the single outcome fully describes the adapter for
  one `webSearch` invocation).
- Debug log emission has no influence on any returned value (the logging
  functions are proven to never throw), so values carry no log traces.
-/

namespace Omnisearch

/-- JavaScript truthiness of a `string` value: falsy iff empty. -/
def jsTruthyStr (s : String) : Bool := s != ""

/-- JavaScript truthiness of a `string | undefined` value. -/
def jsTruthyOptStr : Option String → Bool
  | none => false
  | some s => jsTruthyStr s

/-- JavaScript `a || b` for strings: `b` when `a` is falsy (empty). -/
def jsOrStr (a b : String) : String := if a = "" then b else a

/-- JavaScript `a || b` where `a : string | undefined` and `b` a string. -/
def jsOrOptStr (a : Option String) (b : String) : String :=
  match a with
  | none => b
  | some s => jsOrStr s b

/-- JavaScript `a || b` where both sides are object-or-undefined (objects and
functions are always truthy). -/
def jsOrOption {α : Type} (a b : Option α) : Option α :=
  match a with
  | some x => some x
  | none => b

/-- JavaScript `hay.includes(needle)` (substring test), executable. -/
def strIncludes (hay needle : String) : Bool := decide (needle.data <:+: hay.data)

/-- `needle` occurs as a contiguous substring of `hay` (Prop form used in
theorem statements). -/
def strContains (hay needle : String) : Prop := needle.data <:+: hay.data

instance (hay needle : String) : Decidable (strContains hay needle) :=
  inferInstanceAs (Decidable (needle.data <:+: hay.data))

/-- JavaScript `String.prototype.trim()`: strips leading and trailing
whitespace (structural model of the platform function). -/
def jsTrim (s : String) : String :=
  ⟨((s.data.dropWhile Char.isWhitespace).reverse.dropWhile Char.isWhitespace).reverse⟩

/-- JavaScript `Array.prototype.join(sep)`. -/
def joinSep (sep : String) : List String → String
  | [] => ""
  | [x] => x
  | x :: y :: xs => x ++ sep ++ joinSep sep (y :: xs)

/-- The canonical result record (`SearchResult` in `src/types.ts`, re-declared
by the spec as CanonicalResult).  `ρ` is the provider-native record type kept
in `raw`. -/
structure SearchResult (ρ : Type) where
  url : String
  title : String
  snippet : Option String := none
  content : Option String := none
  domain : Option String := none
  publishedDate : Option String := none
  provider : String
  raw : Option ρ := none
deriving DecidableEq

/-- A JavaScript throw value as the engine distinguishes them
(`src/index.ts:126-133`): an `HttpError` carrying a status code, any other
`Error`, or a non-`Error` value rendered with `String(...)`. -/
inductive JSError where
  | http (statusCode : Nat) (message : String)
  | err (message : String)
  | other (value : String)
deriving DecidableEq

/-- The message text `webSearch` extracts from a throw value
(`src/index.ts:124-133`). -/
def JSError.messageText : JSError → String
  | .http _ m => m
  | .err m => m
  | .other v => v

/-- The status code available to the engine: only `HttpError` carries one
(`src/index.ts:126-128`). -/
def JSError.statusCode : JSError → Option Nat
  | .http sc _ => some sc
  | _ => none

/-! ### Debug hook (`src/utils/debug.ts`) -/

/-- `DebugOptions` from `src/types.ts`: every field optional.  The logger is
caller-supplied and may itself throw (modelled as `Except`); `δ` is the type
of the structured `data` payload. -/
structure DebugOptions (δ : Type) where
  enabled : Option Bool := none
  logRequests : Option Bool := none
  logResponses : Option Bool := none
  logger : Option (String → Option δ → Except String Unit) := none

/-- The default sink (`debug.ts:10-16`) writes to the console and never
throws. -/
def defaultLogger {δ : Type} : String → Option δ → Except String Unit :=
  fun _message _data => .ok ()

/-- `defaultDebugOptions` (`debug.ts:6-17`). -/
def defaultDebugOptions {δ : Type} : DebugOptions δ :=
  { enabled := some false
    logRequests := some false
    logResponses := some false
    logger := some defaultLogger }

/-- The spread merge `{ ...defaultDebugOptions, ...options }` used by every
debug entry point: a field supplied by the caller wins, otherwise the
default. -/
def mergeDebugOptions {δ : Type} (options : Option (DebugOptions δ)) : DebugOptions δ :=
  match options with
  | none => defaultDebugOptions
  | some o =>
    { enabled := jsOrOption o.enabled (defaultDebugOptions (δ := δ)).enabled
      logRequests := jsOrOption o.logRequests (defaultDebugOptions (δ := δ)).logRequests
      logResponses := jsOrOption o.logResponses (defaultDebugOptions (δ := δ)).logResponses
      logger := jsOrOption o.logger (defaultDebugOptions (δ := δ)).logger }

/-- JavaScript truthiness of a `boolean | undefined` value. -/
def optTruthy (b : Option Bool) : Bool := b.getD false

/-- The `try { logger(...) } catch { }` block present in all three debug
functions: whatever the logger does, the call returns normally. -/
def swallowLoggerError (r : Except String Unit) : Except String Unit :=
  match r with
  | .ok _ => .ok ()
  | .error _ => .ok ()

/-- `debug.log` (`debug.ts:30-42`). -/
def debugLog {δ : Type} (options : Option (DebugOptions δ)) (message : String)
    (data : Option δ) : Except String Unit :=
  let opts := mergeDebugOptions options
  if optTruthy opts.enabled then
    match jsOrOption opts.logger (defaultDebugOptions (δ := δ)).logger with
    | some logger => swallowLoggerError (logger message data)
    | none => .ok ()
  else .ok ()

/-- `debug.logRequest` (`debug.ts:51-63`): also requires `logRequests` and
prepends `REQUEST: `. -/
def debugLogRequest {δ : Type} (options : Option (DebugOptions δ)) (message : String)
    (data : Option δ) : Except String Unit :=
  let opts := mergeDebugOptions options
  if optTruthy opts.enabled && optTruthy opts.logRequests then
    match jsOrOption opts.logger (defaultDebugOptions (δ := δ)).logger with
    | some logger => swallowLoggerError (logger ("REQUEST: " ++ message) data)
    | none => .ok ()
  else .ok ()

/-- `debug.logResponse` (`debug.ts:72-84`): also requires `logResponses` and
prepends `RESPONSE: `. -/
def debugLogResponse {δ : Type} (options : Option (DebugOptions δ)) (message : String)
    (data : Option δ) : Except String Unit :=
  let opts := mergeDebugOptions options
  if optTruthy opts.enabled && optTruthy opts.logResponses then
    match jsOrOption opts.logger (defaultDebugOptions (δ := δ)).logger with
    | some logger => swallowLoggerError (logger ("RESPONSE: " ++ message) data)
    | none => .ok ()
  else .ok ()

/-! ### Aggregation engine (`src/index.ts`) -/

/-- `getTroubleshootingInfo` (`src/index.ts:13-83`).  `errorMessage` is the
`.message` of the (possibly wrapped) `Error` passed in; `statusCode` is
present only for `HttpError`s. -/
def getTroubleshootingInfo (providerName : String) (errorMessage : String)
    (statusCode : Option Nat) : String :=
  let s0 :=
    match statusCode with
    | some sc =>
      if sc == 0 then ""
      else if sc == 401 || sc == 403 then
        "This is likely an authentication issue. Check your API key and make sure it\x27s valid and has the correct permissions."
      else if sc == 400 then
        "This is likely due to invalid request parameters. Check your query and other search options."
      else if sc == 429 then
        "You\x27ve exceeded the rate limit for this API. Try again later or reduce your request frequency."
      else if 500 ≤ sc then
        "The search provider is experiencing server issues. Try again later."
      else ""
    | none => ""
  let s1 :=
    if strIncludes errorMessage "[object Object]" then
      s0 ++ "\n\nThe error response contains complex data that wasn\x27t properly formatted. Try enabling debug mode to see the full response details: \x7b debug: \x7b enabled: true, logResponses: true \x7d \x7d"
    else s0
  if providerName == "google" then
    if strIncludes errorMessage "API key" then
      "Make sure your Google API key is valid and has the Custom Search API enabled. Also check if your Search Engine ID (cx) is correct."
    else if strIncludes errorMessage "quota" then
      "You\x27ve exceeded your Google Custom Search API quota. Check your Google Cloud Console for quota information."
    else s1
  else if providerName == "serpapi" then
    if strIncludes errorMessage "apiKey" then
      "Check that your SerpAPI key is valid. Verify that you have enough credits remaining in your SerpAPI account."
    else s1
  else if providerName == "brave" then
    if strIncludes errorMessage "token" then
      "Ensure your Brave Search API token is valid. Check your subscription status in the Brave Developer Hub."
    else s1
  else if providerName == "searxng" then
    if strIncludes errorMessage "not found" || statusCode == some 404 then
      "Check if your SearXNG instance URL is correct and that the server is running. Verify the format of your search URL."
    else s1
  else if providerName == "duckduckgo" then
    if strIncludes errorMessage "vqd" then
      "Failed to extract the vqd parameter from DuckDuckGo. This may be due to temporary API changes or rate limiting. Try again later or consider using a different search type."
    else if statusCode == some 429 || strIncludes errorMessage "rate" then
      "You may be making too many requests to DuckDuckGo. Try adding a delay between requests or reduce your request frequency."
    else s1
  else if providerName == "perplexity" then
    if strIncludes errorMessage "api_key" || strIncludes errorMessage "apiKey" then
      "Check your Perplexity API key. Make sure it\x27s valid and has the correct permissions for the Search API."
    else if statusCode == some 429 then
      "You have exceeded your Perplexity API quota or rate limits. Check your usage in your Perplexity account dashboard."
    else if statusCode == some 400 then
      "Check your search parameters for the Perplexity API. Ensure max_results is between 1-20, and date formats are correct (MM/DD/YYYY)."
    else s1
  else
    if s1 == "" then
      "Check your " ++ providerName ++ " API credentials and make sure your search request is valid."
    else s1

/-- The detailed per-adapter error message built in the catch branch of the
per-provider task (`src/index.ts:121-147`): provider attribution plus the
extracted message, with troubleshooting text appended when non-blank. -/
def detailedErrorMessage (name : String) (e : JSError) : String :=
  if getTroubleshootingInfo name e.messageText e.statusCode ≠ "" ∧
      jsTrim (getTroubleshootingInfo name e.messageText e.statusCode) ≠ "" then
    "Search with provider \x27" ++ name ++ "\x27 failed: " ++ e.messageText ++
      "\n\nTroubleshooting: " ++ getTroubleshootingInfo name e.messageText e.statusCode
  else
    "Search with provider \x27" ++ name ++ "\x27 failed: " ++ e.messageText

deriving instance DecidableEq for Except

/-- One configured adapter handle as `webSearch` sees it: its name and the
outcome its `search` settles to for this call. -/
structure Provider (ρ : Type) where
  name : String
  search : Except JSError (List (SearchResult ρ))
deriving DecidableEq

/-- The fields of `WebSearchOptions` that the engine itself reads
(`src/index.ts:92-103`): the adapter list, the query and the ID list.  The
remaining search options are forwarded verbatim to the adapters and are part
of each adapter's settled outcome. -/
structure WebSearchOptions (ρ : Type) where
  provider : List (Provider ρ)
  query : Option String := none
  idList : Option String := none
deriving DecidableEq

/-- The per-adapter record built by the parallel tasks
(`src/index.ts:113-161`): provider name with `results` and `error` fields. -/
structure Outcome (ρ : Type) where
  provider : String
  results : List (SearchResult ρ)
  error : Option String
deriving DecidableEq

/-- One adapter's task (`src/index.ts:113-161`): success keeps the results
with `error: null`; failure keeps `results: []` with the detailed error. -/
def providerOutcome {ρ : Type} (p : Provider ρ) : Outcome ρ :=
  match p.search with
  | .ok results => { provider := p.name, results := results, error := none }
  | .error e => { provider := p.name, results := [], error := some (detailedErrorMessage p.name e) }

/-- The collection loop (`src/index.ts:167-177`): successful results are
appended in adapter order, error messages are gathered separately. -/
def collectOutcomes {ρ : Type} : List (Outcome ρ) → List (SearchResult ρ) × List String
  | [] => ([], [])
  | o :: rest =>
    let tail := collectOutcomes rest
    match o.error with
    | some e => (tail.1, e :: tail.2)
    | none => (o.results ++ tail.1, tail.2)

/-- `provider.some(p => p.name === 'arxiv')` (`src/index.ts:100`). -/
def hasArxivProvider {ρ : Type} (ps : List (Provider ρ)) : Bool :=
  ps.any (fun p => p.name == "arxiv")

/-- The aggregation engine `webSearch` (`src/index.ts:91-192`).  Conditions
are transcribed literally: `!provider || provider.length === 0`, then
`!options.query && !(hasArxivProvider && options.idList)`, and finally
`allResults.length === 0 && errors.length > 0`. -/
def webSearch {ρ : Type} (opts : WebSearchOptions ρ) : Except String (List (SearchResult ρ)) :=
  if opts.provider.length = 0 then
    .error "At least one search provider is required"
  else if jsTruthyOptStr opts.query = false ∧
      ¬(hasArxivProvider opts.provider = true ∧ jsTruthyOptStr opts.idList = true) then
    .error "A search query or ID list (for Arxiv) is required"
  else
    let searchResults := opts.provider.map providerOutcome
    let allResults := (collectOutcomes searchResults).1
    let errors := (collectOutcomes searchResults).2
    if allResults.length = 0 ∧ 0 < errors.length then
      .error ("All " ++ toString opts.provider.length ++ " provider(s) failed:\n\n" ++
        joinSep "\n\n" errors)
    else
      .ok allResults

/-- The result list an adapter's settled outcome contributes on success, and
`[]` on failure. -/
def okResults {ρ : Type} (p : Provider ρ) : List (SearchResult ρ) :=
  match p.search with
  | .ok rs => rs
  | .error _ => []

/-- The detailed message a failing adapter contributes (`""` for a
successful one, unused in that case). -/
def failMessage {ρ : Type} (p : Provider ρ) : String :=
  match p.search with
  | .error e => detailedErrorMessage p.name e
  | .ok _ => ""

/-! ### Search options shared by the adapters (`SearchOptions` in
`src/types.ts`, fields as the embedded adapters read them) -/

/-- The `SearchOptions` fields the embedded adapters destructure. -/
structure SearchOptions where
  query : Option String := none
  idList : Option String := none
  maxResults : Option Nat := none
  start : Option Nat := none
  region : Option String := none
  language : Option String := none
  timeout : Option Nat := none
deriving DecidableEq

/-- Best-effort domain extraction: `try { domain = new URL(u).hostname }
catch { domain = undefined }` (perplexity.ts:178-183 and the Parallel
adapter's identical block).  `urlCtor` is the platform URL constructor, which
may throw. -/
def parseDomain (urlCtor : String → Except String String) (u : String) : Option String :=
  match urlCtor u with
  | .ok hostname => some hostname
  | .error _ => none

/-! ### Perplexity adapter (`src/providers/perplexity.ts`) -/

/-- `PerplexitySearchResult` (perplexity.ts:8-14): every field declared
required by the provider's response schema. -/
structure PerplexityNative where
  title : String
  url : String
  snippet : String
  date : String
  last_updated : String
deriving DecidableEq

/-- `PerplexitySearchResponse` (perplexity.ts:16-18); the adapter guards
against a missing list (`!response.results`), so the field is optional
here. -/
structure PerplexityResponse where
  results : Option (List PerplexityNative) := none
deriving DecidableEq

/-- `PerplexityConfig` (perplexity.ts:23-42). -/
structure PerplexityConfig where
  apiKey : String := ""
  baseUrl : Option String := none
  maxTokens : Option Nat := none
  maxTokensPerPage : Option Nat := none
  country : Option String := none
  searchDomainFilter : Option (List String) := none
  searchRecencyFilter : Option String := none
  searchAfterDate : Option String := none
  searchBeforeDate : Option String := none
  searchLanguageFilter : Option (List String) := none
deriving DecidableEq

/-- `PerplexityRequestBody` (perplexity.ts:47-58). -/
structure PerplexityRequestBody where
  query : String
  max_results : Option Nat := none
  max_tokens : Option Nat := none
  search_domain_filter : Option (List String) := none
  max_tokens_per_page : Option Nat := none
  country : Option String := none
  search_recency_filter : Option String := none
  search_after_date : Option String := none
  search_before_date : Option String := none
  search_language_filter : Option (List String) := none
deriving DecidableEq

/-- Request-body construction (perplexity.ts:96-143); `query` is the already
validated query string. -/
def buildPerplexityRequestBody (config : PerplexityConfig) (query : String)
    (opts : SearchOptions) : PerplexityRequestBody :=
  let maxResults := opts.maxResults.getD 10
  { query := query
    max_results := some (max 1 (min 20 maxResults))
    max_tokens := config.maxTokens
    search_domain_filter := config.searchDomainFilter
    max_tokens_per_page := config.maxTokensPerPage
    country :=
      if jsTruthyOptStr opts.region then opts.region
      else if jsTruthyOptStr config.country then config.country
      else none
    search_recency_filter :=
      if jsTruthyOptStr config.searchRecencyFilter then config.searchRecencyFilter else none
    search_after_date :=
      if jsTruthyOptStr config.searchAfterDate then config.searchAfterDate else none
    search_before_date :=
      if jsTruthyOptStr config.searchBeforeDate then config.searchBeforeDate else none
    search_language_filter :=
      match config.searchLanguageFilter with
      | some f => some f
      | none =>
        match opts.language with
        | some lang => if jsTruthyStr lang then some [lang] else none
        | none => none }

/-- Mapping of one native Perplexity record to the canonical shape
(perplexity.ts:176-197). -/
def mapPerplexityResult (urlCtor : String → Except String String)
    (result : PerplexityNative) : SearchResult PerplexityNative :=
  { url := result.url
    title := result.title
    snippet := some result.snippet
    content := none
    domain := parseDomain urlCtor result.url
    publishedDate := some (jsOrStr result.last_updated result.date)
    provider := "perplexity"
    raw := some result }

/-- Successful-response handling (perplexity.ts:170-197): absent or empty
native list maps to `[]`, otherwise each record is mapped. -/
def handlePerplexityResponse (urlCtor : String → Except String String)
    (response : PerplexityResponse) : List (SearchResult PerplexityNative) :=
  match response.results with
  | none => []
  | some results =>
    if results.length = 0 then []
    else results.map (mapPerplexityResult urlCtor)

/-- Error classification in the Perplexity catch branch
(perplexity.ts:198-252). -/
def perplexityClassifyError (e : JSError) : String :=
  let base := "Perplexity search failed"
  let diagnosticInfo :=
    match e with
    | .http sc msg =>
      if sc == 401 then "Invalid API key. Check your Perplexity API key."
      else if sc == 403 then
        "Access denied. Your Perplexity API key may have insufficient permissions or has expired."
      else if sc == 429 then
        "Rate limit exceeded. You have reached your Perplexity API quota or sent too many requests."
      else if sc == 400 then
        let d := "Bad request. Check your search parameters."
        if strIncludes msg "max_results" then
          d ++ " Invalid max_results value. Must be between 1 and 20."
        else if strIncludes msg "search_recency_filter" then
          d ++ " Invalid search_recency_filter. Use \"day\", \"week\", \"month\", or \"year\"."
        else if strIncludes msg "search_after_date" || strIncludes msg "search_before_date" then
          d ++ " Invalid date format. Use MM/DD/YYYY format."
        else d
      else if 500 ≤ sc then
        "Perplexity server error. The service might be experiencing issues. Try again later."
      else ""
    | .err msg =>
      if strIncludes msg "api_key" || strIncludes msg "apiKey" then
        "Authentication issue. Check your Perplexity API key."
      else if strIncludes msg "timeout" then
        "The request timed out. Try increasing the timeout value or simplifying your query."
      else ""
    | .other _ => ""
  let errorMessage := base ++ ": " ++ e.messageText
  if diagnosticInfo != "" then
    errorMessage ++ "\n\nDiagnostic information: " ++ diagnosticInfo ++
      "\n\nPerplexity API docs: https://docs.perplexity.ai/api-reference"
  else errorMessage

/-- The Perplexity `search` operation (perplexity.ts:81-254).  `net` is the
transport: it receives the built request body and settles to the parsed
response or a throw value (the request URL and headers are part of the
external transport). -/
def perplexitySearch (config : PerplexityConfig) (opts : SearchOptions)
    (net : PerplexityRequestBody → Except JSError PerplexityResponse)
    (urlCtor : String → Except String String) :
    Except JSError (List (SearchResult PerplexityNative)) :=
  if jsTruthyOptStr opts.query = false then
    .error (.err "Perplexity search requires a query.")
  else
    let requestBody := buildPerplexityRequestBody config (opts.query.getD "") opts
    match net requestBody with
    | .ok response => .ok (handlePerplexityResponse urlCtor response)
    | .error e => .error (.err (perplexityClassifyError e))

/-- `createPerplexityProvider` configuration check (perplexity.ts:71-74):
missing/empty API key throws synchronously. -/
def createPerplexityProvider (config : PerplexityConfig) :
    Except String (SearchOptions → (PerplexityRequestBody → Except JSError PerplexityResponse) →
      (String → Except String String) → Except JSError (List (SearchResult PerplexityNative))) :=
  if jsTruthyStr config.apiKey = false then
    .error "Perplexity requires an API key"
  else
    .ok (fun opts net urlCtor => perplexitySearch config opts net urlCtor)

/-- The message thrown by the unconfigured `perplexity` singleton
(perplexity.ts:277-279). -/
def perplexityUnconfiguredMessage : String :=
  "Perplexity provider must be configured before use. Call perplexity.configure() first."

/-- `perplexity.search` on the module-level unconfigured singleton
(perplexity.ts:262-280): always rejects, touching nothing else. -/
def perplexityUnconfiguredSearch (_opts : SearchOptions) :
    Except JSError (List (SearchResult PerplexityNative)) :=
  .error (.err perplexityUnconfiguredMessage)

/-! ### Parallel adapter (unnamed provider file, same layout as
perplexity.ts) -/

/-- `ParallelWebSearchResult`: `title`, `publish_date` and `excerpts` are
declared optional. -/
structure ParallelNative where
  url : String
  title : Option String := none
  publish_date : Option String := none
  excerpts : Option (List String) := none
deriving DecidableEq

/-- `ParallelSearchResponse` (warnings/usage only feed debug logging and are
omitted); the adapter guards a missing `results` list. -/
structure ParallelResponse where
  search_id : String
  results : Option (List ParallelNative) := none
deriving DecidableEq

/-- `ExcerptSettings`. -/
structure ExcerptSettings where
  max_chars_per_result : Option Nat := none
  count : Option Nat := none
deriving DecidableEq

/-- `SourcePolicy`. -/
structure SourcePolicy where
  include_domains : Option (List String) := none
  exclude_domains : Option (List String) := none
  after_date : Option String := none
  before_date : Option String := none
deriving DecidableEq

/-- `FetchPolicy`. -/
structure FetchPolicy where
  strategy : Option String := none
deriving DecidableEq

/-- `ParallelConfig`. -/
structure ParallelConfig where
  apiKey : String := ""
  baseUrl : Option String := none
  mode : Option String := none
  maxResults : Option Nat := none
  includeDomains : Option (List String) := none
  excludeDomains : Option (List String) := none
  afterDate : Option String := none
  beforeDate : Option String := none
  maxCharsPerResult : Option Nat := none
  excerptCount : Option Nat := none
  fetchStrategy : Option String := none
deriving DecidableEq

/-- `ParallelSearchRequestBody`. -/
structure ParallelRequestBody where
  objective : Option String := none
  search_queries : Option (List String) := none
  mode : Option String := none
  max_results : Option Nat := none
  excerpts : Option ExcerptSettings := none
  source_policy : Option SourcePolicy := none
  fetch_policy : Option FetchPolicy := none
deriving DecidableEq

/-- JavaScript truthiness of `list?.length` for an optional array. -/
def optListNonempty {α : Type} : Option (List α) → Bool
  | none => false
  | some l => l.length != 0

/-- Parallel request-body construction (the adapter's lines 144-205);
`query` is the already validated query string. -/
def buildParallelRequestBody (config : ParallelConfig) (query : String)
    (opts : SearchOptions) : ParallelRequestBody :=
  let maxResults := opts.maxResults.getD 10
  let effectiveMaxResults :=
    if maxResults != 0 then maxResults
    else match config.maxResults with
      | some c => if c != 0 then c else 10
      | none => 10
  { objective := some query
    search_queries := none
    mode := if jsTruthyOptStr config.mode then config.mode else none
    max_results := some effectiveMaxResults
    excerpts :=
      if config.maxCharsPerResult.isSome || config.excerptCount.isSome then
        some { max_chars_per_result := config.maxCharsPerResult, count := config.excerptCount }
      else none
    source_policy :=
      if optListNonempty config.includeDomains || optListNonempty config.excludeDomains ||
          jsTruthyOptStr config.afterDate || jsTruthyOptStr config.beforeDate then
        some { include_domains :=
                 if optListNonempty config.includeDomains then config.includeDomains else none
               exclude_domains :=
                 if optListNonempty config.excludeDomains then config.excludeDomains else none
               after_date := if jsTruthyOptStr config.afterDate then config.afterDate else none
               before_date := if jsTruthyOptStr config.beforeDate then config.beforeDate else none }
      else none
    fetch_policy :=
      if jsTruthyOptStr config.fetchStrategy then some { strategy := config.fetchStrategy }
      else none }

/-- Mapping of one native Parallel record to the canonical shape (the
adapter's lines 253-278): title falls back to a placeholder, the first
excerpt becomes the snippet, all excerpts joined become the content. -/
def mapParallelResult (urlCtor : String → Except String String)
    (result : ParallelNative) : SearchResult ParallelNative :=
  let excerpts := result.excerpts.getD []
  { url := result.url
    title := jsOrOptStr result.title "No title available"
    snippet :=
      match excerpts with
      | [] => none
      | x :: _ => some x
    content :=
      match excerpts with
      | [] => none
      | _ => some (joinSep "\n\n" excerpts)
    domain := parseDomain urlCtor result.url
    publishedDate := result.publish_date
    provider := "parallel"
    raw := some result }

/-- Successful-response handling for Parallel (lines 247-278): absent or
empty native list maps to `[]`. -/
def handleParallelResponse (urlCtor : String → Except String String)
    (response : ParallelResponse) : List (SearchResult ParallelNative) :=
  match response.results with
  | none => []
  | some results =>
    if results.length = 0 then []
    else results.map (mapParallelResult urlCtor)

/-- Error classification in the Parallel catch branch (lines 279-352). -/
def parallelClassifyError (e : JSError) : String :=
  let base := "Parallel search failed"
  let diagnosticInfo :=
    match e with
    | .http sc msg =>
      if sc == 401 then "Invalid API key. Check your Parallel API key."
      else if sc == 403 then
        "Access denied. Your Parallel API key may have insufficient permissions or has expired."
      else if sc == 429 then
        "Rate limit exceeded. You have reached your Parallel API quota or sent too many requests."
      else if sc == 400 then
        let d := "Bad request. Check your search parameters."
        if strIncludes msg "objective" || strIncludes msg "search_queries" then
          d ++ " At least one of objective or search_queries must be provided."
        else if strIncludes msg "max_results" then
          d ++ " Invalid max_results value."
        else if strIncludes msg "source_policy" then
          d ++ " Invalid source_policy configuration. Check domain and date formats."
        else d
      else if sc == 422 then
        let d := "Validation error. The request parameters failed validation checks."
        if strIncludes msg "date" then
          d ++ " Invalid date format. Use RFC 3339 date format (YYYY-MM-DD) for afterDate/beforeDate."
        else if strIncludes msg "domain" then
          d ++ " Invalid domain format in includeDomains or excludeDomains."
        else if strIncludes msg "mode" then
          d ++ " Invalid mode value. Use \"one-shot\" or \"agentic\"."
        else if strIncludes msg "strategy" then
          d ++ " Invalid fetch strategy. Use \"cached\" or \"live\"."
        else d
      else if 500 ≤ sc then
        "Parallel server error. The service might be experiencing issues. Try again later."
      else ""
    | .err msg =>
      if strIncludes msg "api_key" || strIncludes msg "apiKey" then
        "Authentication issue. Check your Parallel API key."
      else if strIncludes msg "timeout" then
        "The request timed out. Try increasing the timeout value or simplifying your query."
      else ""
    | .other _ => ""
  let errorMessage := base ++ ": " ++ e.messageText
  if diagnosticInfo != "" then
    errorMessage ++ "\n\nDiagnostic information: " ++ diagnosticInfo ++
      "\n\nParallel API docs: https://api.parallel.ai"
  else errorMessage

/-- The Parallel `search` operation (the adapter's lines 136-354).  Unlike
Perplexity, its query guard also rejects whitespace-only queries
(`!query || !query.trim()`). -/
def parallelSearch (config : ParallelConfig) (opts : SearchOptions)
    (net : ParallelRequestBody → Except JSError ParallelResponse)
    (urlCtor : String → Except String String) :
    Except JSError (List (SearchResult ParallelNative)) :=
  if jsTruthyOptStr opts.query = false ∨ jsTrim (opts.query.getD "") = "" then
    .error (.err "Parallel search requires a query.")
  else
    let requestBody := buildParallelRequestBody config (opts.query.getD "") opts
    match net requestBody with
    | .ok response => .ok (handleParallelResponse urlCtor response)
    | .error e => .error (.err (parallelClassifyError e))

/-- `createParallelProvider` configuration check (lines 126-129). -/
def createParallelProvider (config : ParallelConfig) :
    Except String (SearchOptions → (ParallelRequestBody → Except JSError ParallelResponse) →
      (String → Except String String) → Except JSError (List (SearchResult ParallelNative))) :=
  if jsTruthyStr config.apiKey = false then
    .error "Parallel requires an API key"
  else
    .ok (fun opts net urlCtor => parallelSearch config opts net urlCtor)

/-- The message thrown by the unconfigured `parallel` singleton (lines
377-381). -/
def parallelUnconfiguredMessage : String :=
  "Parallel search provider must be configured before use. Call parallel.configure() first."

/-- `parallel.search` on the module-level unconfigured singleton (lines
362-382): always rejects. -/
def parallelUnconfiguredSearch (_opts : SearchOptions) :
    Except JSError (List (SearchResult ParallelNative)) :=
  .error (.err parallelUnconfiguredMessage)

/-- The message thrown by the unconfigured `arxiv` singleton (the Arxiv
adapter's lines 632-636). -/
def arxivUnconfiguredMessage : String :=
  "Arxiv provider must be configured before use. Call arxiv.configure() first, even with empty options if defaults are fine."

/-- `arxiv.search` on the module-level unconfigured singleton: always
rejects.  (`ρ := Unit`: the Arxiv native entry type is not otherwise needed
by the claims.) -/
def arxivUnconfiguredSearch (_opts : SearchOptions) :
    Except JSError (List (SearchResult Unit)) :=
  .error (.err arxivUnconfiguredMessage)

/-! ### Concrete fixtures used to instantiate the theorems -/

/-- A canonical result as adapter `alpha` would return it. -/
def resultA : SearchResult Unit :=
  { url := "https://a.example", title := "A", provider := "alpha" }

/-- A canonical result as adapter `beta` would return it. -/
def resultB : SearchResult Unit :=
  { url := "https://b.example", title := "B", provider := "beta" }

/-- Adapter `alpha` resolving with one result. -/
def providerA : Provider Unit := { name := "alpha", search := .ok [resultA] }

/-- Adapter `beta` resolving with one result. -/
def providerB : Provider Unit := { name := "beta", search := .ok [resultB] }

/-- Adapter `alpha` resolving successfully with zero results. -/
def emptySuccessProvider : Provider Unit := { name := "alpha", search := .ok [] }

/-- Adapter `beta` rejecting with a plain `Error`. -/
def failingProvider : Provider Unit :=
  { name := "beta", search := .error (.err "beta exploded") }

/-- Adapter `gamma` rejecting with a rate-limit `HttpError`. -/
def rateLimitedProvider : Provider Unit :=
  { name := "gamma", search := .error (.http 429 "Too Many Requests") }

/-- Two resolving adapters and a present query. -/
def c1Options : WebSearchOptions Unit :=
  { provider := [providerA, providerB], query := some "test" }

/-- One adapter succeeding with zero results next to one failing adapter. -/
def c2Options : WebSearchOptions Unit :=
  { provider := [emptySuccessProvider, failingProvider], query := some "test" }

/-- Two failing adapters and a present query. -/
def c3Options : WebSearchOptions Unit :=
  { provider := [failingProvider, rateLimitedProvider], query := some "test" }

/-- One resolving adapter and a whitespace-only query. -/
def c4Options : WebSearchOptions Unit :=
  { provider := [{ name := "google", search := .ok [] }], query := some "   " }

/-- A toy platform URL constructor: accepts one specific URL and throws on
everything else. -/
def okHost : String → Except String String :=
  fun u => if u == "https://good.example" then .ok "good.example" else .error "Invalid URL"

/-- A minimal configured Parallel config. -/
def parallelCfgW : ParallelConfig := { apiKey := "k" }

/-- A minimal configured Perplexity config. -/
def perplexityCfgW : PerplexityConfig := { apiKey := "k" }

/-- Search options with a plain query. -/
def wOptions : SearchOptions := { query := some "test" }

/-- A Parallel native record with no title and an unparseable URL. -/
def parallelNativeNoTitle : ParallelNative := { url := "notaurl" }

/-- A Perplexity native record with a parseable URL. -/
def pplxNativeW : PerplexityNative :=
  { title := "Doc", url := "https://good.example", snippet := "snip",
    date := "2024-01-01", last_updated := "" }

/-- A Perplexity native record with an unparseable URL. -/
def pplxBadUrlW : PerplexityNative :=
  { title := "Bad", url := "badurl", snippet := "s", date := "d", last_updated := "" }

/-- Parallel transport fixture: resolves with one native record. -/
def parallelNetW : ParallelRequestBody → Except JSError ParallelResponse :=
  fun _ => .ok { search_id := "sid", results := some [parallelNativeNoTitle] }

/-- Perplexity transport fixture: resolves with one native record. -/
def perplexityNetW : PerplexityRequestBody → Except JSError PerplexityResponse :=
  fun _ => .ok { results := some [pplxNativeW] }

/-- The canonical results the Parallel fixture search resolves to. -/
def parallelResultsW : List (SearchResult ParallelNative) :=
  [mapParallelResult okHost parallelNativeNoTitle]

/-- The canonical results the Perplexity fixture search resolves to. -/
def perplexityResultsW : List (SearchResult PerplexityNative) :=
  [mapPerplexityResult okHost pplxNativeW]

/-- A Parallel response that succeeds with an empty native list. -/
def parallelEmptyRespW : ParallelResponse := { search_id := "sid", results := some [] }

/-- A Perplexity response with the native list absent. -/
def perplexityEmptyRespW : PerplexityResponse := { results := none }

/-! ## Helper lemmas -/

theorem swallowLoggerError_ok (r : Except String Unit) : swallowLoggerError r = .ok () := by
  cases r <;> rfl

theorem sub_trans {a b c : List Char} (h₁ : a <:+: b) (h₂ : b <:+: c) : a <:+: c := by
  obtain ⟨s, t, hst⟩ := h₁
  obtain ⟨u, v, huv⟩ := h₂
  exact ⟨u ++ s, t ++ v, by rw [← huv, ← hst]; simp⟩

theorem str_sub_append_right {n : List Char} (a b : String) (h : n <:+: a.data) :
    n <:+: (a ++ b).data := by
  obtain ⟨s, t, hst⟩ := h
  exact ⟨s, t ++ b.data, by rw [String.data_append, ← hst]; simp⟩

theorem str_sub_append_left {n : List Char} (a b : String) (h : n <:+: b.data) :
    n <:+: (a ++ b).data := by
  obtain ⟨s, t, hst⟩ := h
  exact ⟨a.data ++ s, t, by rw [String.data_append, ← hst]; simp⟩

theorem str_sub_end (a b : String) : b.data <:+: (a ++ b).data :=
  ⟨a.data, [], by simp [String.data_append]⟩

theorem mem_sub_joinSep (sep : String) :
    ∀ (l : List String), ∀ x ∈ l, x.data <:+: (joinSep sep l).data
  | [], x, hx => by simp at hx
  | [y], x, hx => by
    rw [List.mem_singleton.mp hx]
    exact ⟨[], [], by simp [joinSep]⟩
  | y :: z :: rest, x, hx => by
    rcases List.mem_cons.mp hx with h | h
    · subst h
      exact str_sub_append_right _ _ (str_sub_append_right _ _ ⟨[], [], by simp⟩)
    · exact str_sub_append_left _ _ (mem_sub_joinSep sep (z :: rest) x h)

theorem name_sub_detailed (name : String) (e : JSError) :
    name.data <:+: (detailedErrorMessage name e).data := by
  unfold detailedErrorMessage
  split
  · exact str_sub_append_right _ _ (str_sub_append_right _ _ (str_sub_append_right _ _
      (str_sub_append_right _ _ (str_sub_end _ _))))
  · exact str_sub_append_right _ _ (str_sub_append_right _ _ (str_sub_end _ _))

theorem text_sub_detailed (name : String) (e : JSError) :
    e.messageText.data <:+: (detailedErrorMessage name e).data := by
  unfold detailedErrorMessage
  split
  · exact str_sub_append_right _ _ (str_sub_append_right _ _ (str_sub_end _ _))
  · exact str_sub_end _ _

theorem collect_all_ok {ρ : Type} (ps : List (Provider ρ))
    (h : ∀ p ∈ ps, ∃ rs, p.search = Except.ok rs) :
    collectOutcomes (ps.map providerOutcome) = ((ps.map okResults).flatten, ([] : List String)) := by
  induction ps with
  | nil => simp [collectOutcomes]
  | cons p rest ih =>
    obtain ⟨rs, hrs⟩ := h p (List.mem_cons_self p rest)
    have ihr := ih (fun q hq => h q (List.mem_cons_of_mem _ hq))
    simp [collectOutcomes, providerOutcome, hrs, ihr, okResults]

theorem collect_all_fail {ρ : Type} (ps : List (Provider ρ))
    (h : ∀ p ∈ ps, ∃ e, p.search = Except.error e) :
    collectOutcomes (ps.map providerOutcome) = (([] : List (SearchResult ρ)), ps.map failMessage) := by
  induction ps with
  | nil => simp [collectOutcomes]
  | cons p rest ih =>
    obtain ⟨e, he⟩ := h p (List.mem_cons_self p rest)
    have ihr := ih (fun q hq => h q (List.mem_cons_of_mem _ hq))
    simp [collectOutcomes, providerOutcome, he, ihr, failMessage]

/-! ## Claim theorems -/

/-- Claim C10: for every debug options value, message and data argument,
`debug.log`, `debug.logRequest` and `debug.logResponse` return normally: an
exception raised by the caller-supplied logger is caught and discarded, so
logging can never turn a successful search into a failure. -/
theorem debug_logging_never_throws {δ : Type} (options : Option (DebugOptions δ))
    (message : String) (data : Option δ) :
    debugLog options message data = Except.ok () ∧
    debugLogRequest options message data = Except.ok () ∧
    debugLogResponse options message data = Except.ok () := by
  refine ⟨?_, ?_, ?_⟩ <;>
    simp only [debugLog, debugLogRequest, debugLogResponse] <;>
    split <;>
    first
    | rfl
    | (split
       · exact swallowLoggerError_ok _
       · rfl)

/-- Claim C5: the unconfigured module-level singletons (`parallel`,
`perplexity`, `arxiv`) reject every `search()` call with a message containing
"must be configured"; the rejection is a constant, independent of the
options, and involves no network transport (none is even available to it). -/
theorem unconfigured_singleton_search_always_rejects (opts : SearchOptions) :
    (perplexityUnconfiguredSearch opts = Except.error (.err perplexityUnconfiguredMessage) ∧
      strContains perplexityUnconfiguredMessage "must be configured") ∧
    (parallelUnconfiguredSearch opts = Except.error (.err parallelUnconfiguredMessage) ∧
      strContains parallelUnconfiguredMessage "must be configured") ∧
    (arxivUnconfiguredSearch opts = Except.error (.err arxivUnconfiguredMessage) ∧
      strContains arxivUnconfiguredMessage "must be configured") := by
  refine ⟨⟨rfl, ?_⟩, ⟨rfl, ?_⟩, ⟨rfl, ?_⟩⟩ <;> decide

/-- Claim C9: every per-adapter record built by the engine's dispatch tasks
is, semantically, a tagged union: it never carries a non-empty result list
together with an error (the error branch always stores `results: []`, the
success branch always stores `error: null`). -/
theorem outcome_never_results_and_error {ρ : Type} (opts : WebSearchOptions ρ) :
    ∀ o ∈ opts.provider.map providerOutcome,
      o.error = none ∨ o.results = [] := by
  intro o ho
  obtain ⟨p, _, rfl⟩ := List.mem_map.mp ho
  unfold providerOutcome
  cases p.search <;> simp

/-- Witness for C9 at a failing adapter of a concrete `webSearch` call. -/
theorem outcome_never_results_and_error_witness :
    (providerOutcome failingProvider).error = none ∨
      (providerOutcome failingProvider).results = [] :=
  outcome_never_results_and_error c2Options (providerOutcome failingProvider)
    (by simp [c2Options])

/-- Claim C4 (code bug): a whitespace-only query passes the engine's
falsy-only validation (`!options.query`), so `webSearch` dispatches instead
of rejecting, while an absent query is rejected with the documented message —
contradicting the repository's own test `throws if query is only whitespace`
and the spec. -/
theorem webSearch_whitespace_query_not_rejected :
    webSearch c4Options = Except.ok [] ∧
      webSearch { c4Options with query := none } =
        Except.error "A search query or ID list (for Arxiv) is required" := by
  constructor <;> rfl

set_option maxRecDepth 8000 in
/-- Claim C2 (code bug): with one adapter resolving with zero results and the
other rejecting, `webSearch` rejects with "All 2 provider(s) failed" even
though one adapter succeeded, because the final check tests
`allResults.length === 0` instead of "every adapter failed". -/
theorem webSearch_zero_result_success_still_rejects :
    emptySuccessProvider.search = Except.ok [] ∧
      ∃ msg, webSearch c2Options = Except.error msg ∧
        strContains msg "All 2 provider(s) failed" := by
  refine ⟨rfl, _, rfl, ?_⟩
  decide

/-- Claim C1: when every supplied adapter's search resolves, `webSearch`
resolves with the order-preserving concatenation of the per-adapter result
lists, and — the adapters labelling their results with their own name, as
every embedded adapter does — each returned element's `provider` field is the
name of the adapter that produced it. -/
theorem webSearch_concat_ordered {ρ : Type} (opts : WebSearchOptions ρ)
    (hne : opts.provider ≠ [])
    (hq : jsTruthyOptStr opts.query = true)
    (hok : ∀ p ∈ opts.provider, ∃ rs, p.search = Except.ok rs)
    (hnames : ∀ p ∈ opts.provider, ∀ r ∈ okResults p, r.provider = p.name) :
    webSearch opts = Except.ok ((opts.provider.map okResults).flatten) ∧
      ∀ r ∈ (opts.provider.map okResults).flatten,
        ∃ p, p ∈ opts.provider ∧ r ∈ okResults p ∧ r.provider = p.name := by
  have hcol := collect_all_ok opts.provider hok
  constructor
  · unfold webSearch
    rw [if_neg (fun hh => hne (List.length_eq_zero.mp hh))]
    rw [if_neg (fun hcon => by rw [hq] at hcon; exact absurd hcon.1 (by simp))]
    simp [hcol]
  · intro r hr
    obtain ⟨l, hl, hrl⟩ := List.mem_flatten.mp hr
    obtain ⟨p, hp, rfl⟩ := List.mem_map.mp hl
    exact ⟨p, hp, hrl, hnames p hp r hrl⟩

/-- Witness for C1: two concrete resolving adapters. -/
theorem webSearch_concat_ordered_witness :
    webSearch c1Options = Except.ok ((c1Options.provider.map okResults).flatten) ∧
      ∀ r ∈ (c1Options.provider.map okResults).flatten,
        ∃ p, p ∈ c1Options.provider ∧ r ∈ okResults p ∧ r.provider = p.name :=
  webSearch_concat_ordered c1Options (by simp [c1Options])
    (by decide)
    (by
      intro p hp
      simp [c1Options] at hp
      rcases hp with rfl | rfl
      · exact ⟨[resultA], rfl⟩
      · exact ⟨[resultB], rfl⟩)
    (by
      intro p hp r hr
      simp [c1Options] at hp
      rcases hp with rfl | rfl <;>
        simp_all [okResults, providerA, providerB, resultA, resultB])

/-- Claim C3: when every supplied adapter's search rejects, `webSearch`
rejects with a single message that contains, for every adapter, its name, its
full detailed failure text, and the underlying failure message extracted from
its throw value. -/
theorem webSearch_all_fail_error_lists_each {ρ : Type} (opts : WebSearchOptions ρ)
    (hne : opts.provider ≠ [])
    (hq : jsTruthyOptStr opts.query = true)
    (hfail : ∀ p ∈ opts.provider, ∃ e, p.search = Except.error e) :
    ∃ msg, webSearch opts = Except.error msg ∧
      ∀ p ∈ opts.provider, strContains msg p.name ∧ strContains msg (failMessage p) ∧
        ∀ e, p.search = Except.error e → strContains msg e.messageText := by
  have hcol := collect_all_fail opts.provider hfail
  refine ⟨"All " ++ toString opts.provider.length ++ " provider(s) failed:\n\n" ++
    joinSep "\n\n" (opts.provider.map failMessage), ?_, ?_⟩
  · unfold webSearch
    rw [if_neg (fun hh => hne (List.length_eq_zero.mp hh))]
    rw [if_neg (fun hcon => by rw [hq] at hcon; exact absurd hcon.1 (by simp))]
    simp [hcol, List.length_pos.mpr hne]
  · intro p hp
    have hfull : (failMessage p).data <:+:
        ("All " ++ toString opts.provider.length ++ " provider(s) failed:\n\n" ++
          joinSep "\n\n" (opts.provider.map failMessage)).data :=
      str_sub_append_left _ _
        (mem_sub_joinSep "\n\n" (opts.provider.map failMessage) _ (List.mem_map_of_mem _ hp))
    obtain ⟨e, he⟩ := hfail p hp
    have hfm : failMessage p = detailedErrorMessage p.name e := by simp [failMessage, he]
    refine ⟨?_, hfull, ?_⟩
    · exact sub_trans (hfm ▸ name_sub_detailed p.name e) hfull
    · intro e' he'
      have hee : e = e' := by
        rw [he] at he'
        exact Except.error.inj he'
      subst hee
      exact sub_trans (hfm ▸ text_sub_detailed p.name e) hfull

/-- Witness for C3: two concrete failing adapters. -/
theorem webSearch_all_fail_error_lists_each_witness :
    ∃ msg, webSearch c3Options = Except.error msg ∧
      ∀ p ∈ c3Options.provider, strContains msg p.name ∧ strContains msg (failMessage p) ∧
        ∀ e, p.search = Except.error e → strContains msg e.messageText :=
  webSearch_all_fail_error_lists_each c3Options (by simp [c3Options]) (by decide)
    (by
      intro p hp
      simp [c3Options] at hp
      rcases hp with rfl | rfl
      · exact ⟨.err "beta exploded", rfl⟩
      · exact ⟨.http 429 "Too Many Requests", rfl⟩)

/-- Claim C6: every canonical result an embedded adapter's search resolves
with keeps the native record's `url`, carries the adapter's canonical
`provider` name, and has a `title`: Parallel substitutes the placeholder
"No title available" when the native record omits the (optional) title, while
Perplexity's native schema declares the title required and it is kept
as-is. -/
theorem adapter_results_keep_url_and_title
    (urlCtor : String → Except String String) (cfgP : ParallelConfig)
    (cfgQ : PerplexityConfig) (opts : SearchOptions)
    (netP : ParallelRequestBody → Except JSError ParallelResponse)
    (netQ : PerplexityRequestBody → Except JSError PerplexityResponse)
    (rsP : List (SearchResult ParallelNative)) (rsQ : List (SearchResult PerplexityNative))
    (hP : parallelSearch cfgP opts netP urlCtor = Except.ok rsP)
    (hQ : perplexitySearch cfgQ opts netQ urlCtor = Except.ok rsQ) :
    (∀ r ∈ rsP, ∃ n, r.raw = some n ∧ r.url = n.url ∧
        r.title = jsOrOptStr n.title "No title available" ∧
        (n.title = none → r.title = "No title available") ∧ r.provider = "parallel") ∧
    (∀ r ∈ rsQ, ∃ n, r.raw = some n ∧ r.url = n.url ∧ r.title = n.title ∧
        r.provider = "perplexity") := by
  constructor
  · unfold parallelSearch at hP
    split at hP
    · exact absurd hP (by simp)
    · cases hnet : netP (buildParallelRequestBody cfgP (opts.query.getD "") opts) with
      | error e => simp only [hnet] at hP; exact absurd hP (by simp)
      | ok resp =>
        simp only [hnet] at hP
        have hrs : handleParallelResponse urlCtor resp = rsP := Except.ok.inj hP
        subst hrs
        intro r hr
        unfold handleParallelResponse at hr
        cases hres : resp.results with
        | none => rw [hres] at hr; simp at hr
        | some results =>
          simp only [hres] at hr
          rcases Nat.eq_zero_or_pos results.length with hlen | hlen
          · rw [if_pos hlen] at hr
            simp at hr
          · rw [if_neg (Nat.pos_iff_ne_zero.mp hlen)] at hr
            obtain ⟨n, _, rfl⟩ := List.mem_map.mp hr
            refine ⟨n, rfl, rfl, rfl, ?_, rfl⟩
            intro h0
            simp [mapParallelResult, jsOrOptStr, h0]
  · unfold perplexitySearch at hQ
    split at hQ
    · exact absurd hQ (by simp)
    · cases hnet : netQ (buildPerplexityRequestBody cfgQ (opts.query.getD "") opts) with
      | error e => simp only [hnet] at hQ; exact absurd hQ (by simp)
      | ok resp =>
        simp only [hnet] at hQ
        have hrs : handlePerplexityResponse urlCtor resp = rsQ := Except.ok.inj hQ
        subst hrs
        intro r hr
        unfold handlePerplexityResponse at hr
        cases hres : resp.results with
        | none => rw [hres] at hr; simp at hr
        | some results =>
          simp only [hres] at hr
          rcases Nat.eq_zero_or_pos results.length with hlen | hlen
          · rw [if_pos hlen] at hr
            simp at hr
          · rw [if_neg (Nat.pos_iff_ne_zero.mp hlen)] at hr
            obtain ⟨n, _, rfl⟩ := List.mem_map.mp hr
            exact ⟨n, rfl, rfl, rfl, rfl⟩

/-- Witness for C6: a Parallel native record without a title gets the
placeholder; a Perplexity record keeps its fields. -/
theorem adapter_results_keep_url_and_title_witness :
    (∀ r ∈ parallelResultsW, ∃ n, r.raw = some n ∧ r.url = n.url ∧
        r.title = jsOrOptStr n.title "No title available" ∧
        (n.title = none → r.title = "No title available") ∧ r.provider = "parallel") ∧
    (∀ r ∈ perplexityResultsW, ∃ n, r.raw = some n ∧ r.url = n.url ∧ r.title = n.title ∧
        r.provider = "perplexity") :=
  adapter_results_keep_url_and_title okHost parallelCfgW perplexityCfgW wOptions
    parallelNetW perplexityNetW parallelResultsW perplexityResultsW rfl rfl

/-- Claim C7: for both embedded adapters, a provider response whose native
result list is absent or empty makes `search` resolve with `[]` — not an
error and not an undefined value. -/
theorem adapter_empty_results_resolve_empty
    (urlCtor : String → Except String String) (cfgP : ParallelConfig)
    (cfgQ : PerplexityConfig) (opts : SearchOptions)
    (respP : ParallelResponse) (respQ : PerplexityResponse)
    (hquery : jsTruthyOptStr opts.query = true)
    (htrim : jsTrim (opts.query.getD "") ≠ "")
    (hrp : respP.results = none ∨ respP.results = some [])
    (hrq : respQ.results = none ∨ respQ.results = some []) :
    parallelSearch cfgP opts (fun _ => Except.ok respP) urlCtor = Except.ok [] ∧
    perplexitySearch cfgQ opts (fun _ => Except.ok respQ) urlCtor = Except.ok [] := by
  constructor
  · unfold parallelSearch
    rw [if_neg (by
      rintro (hc | hc)
      · rw [hquery] at hc; cases hc
      · exact htrim hc)]
    rcases hrp with h | h <;> simp [handleParallelResponse, h]
  · unfold perplexitySearch
    rw [if_neg (by rw [hquery]; simp)]
    rcases hrq with h | h <;> simp [handlePerplexityResponse, h]

/-- Witness for C7: an empty Parallel native list and an absent Perplexity
native list. -/
theorem adapter_empty_results_resolve_empty_witness :
    parallelSearch parallelCfgW wOptions (fun _ => Except.ok parallelEmptyRespW) okHost =
      Except.ok [] ∧
    perplexitySearch perplexityCfgW wOptions (fun _ => Except.ok perplexityEmptyRespW) okHost =
      Except.ok [] :=
  adapter_empty_results_resolve_empty okHost parallelCfgW perplexityCfgW wOptions
    parallelEmptyRespW perplexityEmptyRespW rfl (by decide) (Or.inr rfl) (Or.inl rfl)

/-- Claim C8: for both embedded adapters, a native record whose URL the
platform URL constructor rejects is still mapped — with `domain := none` —
and the mapping covers every record of the response (one output per input,
no abort). -/
theorem unparseable_url_gives_no_domain
    (urlCtor : String → Except String String)
    (ns : List ParallelNative) (ms : List PerplexityNative) :
    ((ns.map (mapParallelResult urlCtor)).length = ns.length ∧
      ∀ n ∈ ns, mapParallelResult urlCtor n ∈ ns.map (mapParallelResult urlCtor) ∧
        ∀ e, urlCtor n.url = Except.error e → (mapParallelResult urlCtor n).domain = none) ∧
    ((ms.map (mapPerplexityResult urlCtor)).length = ms.length ∧
      ∀ m ∈ ms, mapPerplexityResult urlCtor m ∈ ms.map (mapPerplexityResult urlCtor) ∧
        ∀ e, urlCtor m.url = Except.error e → (mapPerplexityResult urlCtor m).domain = none) := by
  refine ⟨⟨List.length_map _ _, ?_⟩, ⟨List.length_map _ _, ?_⟩⟩
  · intro n hn
    exact ⟨List.mem_map_of_mem _ hn, fun e he => by simp [mapParallelResult, parseDomain, he]⟩
  · intro m hm
    exact ⟨List.mem_map_of_mem _ hm, fun e he => by simp [mapPerplexityResult, parseDomain, he]⟩

/-- Witness for C8: concrete records whose URLs the toy URL constructor
rejects are mapped with no domain. -/
theorem unparseable_url_gives_no_domain_witness :
    (mapParallelResult okHost parallelNativeNoTitle).domain = none ∧
    (mapPerplexityResult okHost pplxBadUrlW).domain = none :=
  ⟨((unparseable_url_gives_no_domain okHost [parallelNativeNoTitle] [pplxBadUrlW]).1.2
      parallelNativeNoTitle (by simp)).2 "Invalid URL" (by decide),
   ((unparseable_url_gives_no_domain okHost [parallelNativeNoTitle] [pplxBadUrlW]).2.2
      pplxBadUrlW (by simp)).2 "Invalid URL" (by decide)⟩

end Omnisearch
